import Mathlib

/-!
Shallow embedding of `src/plugin_bridge.js` (class `PluginBridge`).

Modelling choices:
* JS values are the inductive `Val`.  Objects whose identity matters
  (the `message` and `context` arguments, which middleware may mutate in
  place) live in an explicit heap (`List Val`) and are passed around as
  heap indices; objects the bus freshly creates and never mutates
  (event payloads, `\x7berror: ...\x7d` substitutes) are `Val.obj` literals.
* Foreign code (handlers, middleware, listeners) runs in `ExtM`:
  exceptions (`Except String`, an error carrying its `message` text)
  plus a state of heap and an observation trace (`trace` stands for
  arbitrary external side effects such as console output).
* Bus methods run in `M`, which additionally records every call of
  `emit` (the `emitted` list) and every `logger.error` call (the `log`
  list, the diagnostic sink).  Foreign code cannot touch those two
  fields, mirroring that `emit` and `this.logger` are the bus's own.
* `Map` / `Set` of JS are association lists / lists deduplicated by a
  listener identity token, both in insertion order, matching JS
  iteration order.  `registerPlugin` keeps plugin names unique.
* `async`/`await` and `Promise.all` are modelled by sequential
  monadic execution; `broadcast`'s fan-out runs its per-target tasks
  in snapshot order.
-/

inductive Val where
  | null : Val
  | str : String → Val
  | num : Nat → Val
  | ref : Nat → Val
  | obj : List (String × Val) → Val

structure ExtSt where
  heap : List Val
  trace : List Val

def ExtM (α : Type) : Type := ExtSt → Except String α × ExtSt

def ExtM.pure (a : α) : ExtM α := fun st => (Except.ok a, st)

def ExtM.bind (x : ExtM α) (f : α → ExtM β) : ExtM β := fun st =>
  match x st with
  | (Except.ok a, st') => f a st'
  | (Except.error e, st') => (Except.error e, st')

instance : Monad ExtM where
  pure := ExtM.pure
  bind := ExtM.bind

/-- `throw new Error(msg)` inside foreign code. -/
def ExtM.throwE (msg : String) : ExtM α := fun st => (Except.error msg, st)

/-- An observable external side effect (e.g. console output). -/
def note (v : Val) : ExtM Unit := fun st =>
  (Except.ok (), { st with trace := st.trace ++ [v] })

/-- Read the contents of a heap cell (a JS object reference). -/
def readRef (r : Nat) : ExtM Val := fun st =>
  (Except.ok (st.heap.getD r Val.null), st)

/-- Overwrite the contents of a heap cell (in-place object mutation). -/
def writeRef (r : Nat) (v : Val) : ExtM Unit := fun st =>
  (Except.ok (), { st with heap := st.heap.set r v })

structure RunSt where
  ext : ExtSt
  emitted : List (String × Val)
  log : List String

def M (α : Type) : Type := RunSt → Except String α × RunSt

def M.pure (a : α) : M α := fun st => (Except.ok a, st)

def M.bind (x : M α) (f : α → M β) : M β := fun st =>
  match x st with
  | (Except.ok a, st') => f a st'
  | (Except.error e, st') => (Except.error e, st')

instance : Monad M where
  pure := M.pure
  bind := M.bind

def M.throwE (msg : String) : M α := fun st => (Except.error msg, st)

/-- Run foreign code inside a bus method. -/
def liftE (x : ExtM α) : M α := fun st =>
  match x st.ext with
  | (r, ext') => (r, { st with ext := ext' })

/-- `.catch(handler)` / `try ... catch` around a bus computation. -/
def M.tryCatch (x : M α) (h : String → M α) : M α := fun st =>
  match x st with
  | (Except.ok a, st') => (Except.ok a, st')
  | (Except.error e, st') => h e st'

/-- `this.logger.error(...)`: the diagnostic sink. -/
def logError (msg : String) : M Unit := fun st =>
  (Except.ok (), { st with log := st.log ++ [msg] })

/-- Allocate a fresh object on the heap (e.g. a default `\x7b\x7d` context). -/
def allocRef (v : Val) : M Nat := fun st =>
  (Except.ok st.ext.heap.length,
    { st with ext := { st.ext with heap := st.ext.heap ++ [v] } })

/-- A plugin handler: receives the message and context references. -/
def Handler : Type := Nat → Nat → ExtM Val

/-- Middleware: receives message ref, context ref and the zero-argument
continuation `next` (the rest of the pipeline as a computation). -/
def Middleware : Type := Nat → Nat → ExtM Val → ExtM Val

/-- A listener: identity token (JS function reference identity, used by
`Set` deduplication) plus behaviour. -/
structure Listener where
  id : Nat
  fn : Val → ExtM Unit

/-- The mutable state of one `PluginBridge` instance. -/
structure Bus where
  plugins : List (String × Handler)
  middlewares : List Middleware
  listeners : List (String × List Listener)

/-- Association-list update for the listeners map. -/
def setAssoc (l : List (String × α)) (k : String) (v : α) : List (String × α) :=
  match l with
  | [] => [(k, v)]
  | (k', v') :: rest =>
      if k' = k then (k', v) :: rest else (k', v') :: setAssoc rest k v

/-- Invoke the listeners of one emission in order, each fault-isolated
(lines 118-124 of the source: `try \x7b callback(payload) \x7d catch ...`). -/
def invokeListeners (event : String) (payload : Val) :
    List Listener → M Unit
  | [] => M.pure ()
  | l :: ls =>
      M.bind
        (M.tryCatch (M.bind (liftE (l.fn payload)) (fun _ => M.pure ()))
          (fun e =>
            logError ("Listener error for event \"" ++ event ++ "\": " ++ e)))
        (fun _ => invokeListeners event payload ls)

/-- `emit(event, payload)`.  Every call is recorded in `emitted`
(instrumentation); then each currently subscribed listener runs,
individually fault-isolated. -/
def emit (bus : Bus) (event : String) (payload : Val) : M Unit := fun st =>
  let st' := { st with emitted := st.emitted ++ [(event, payload)] }
  match bus.listeners.lookup event with
  | none => (Except.ok (), st')
  | some ls => invokeListeners event payload ls st'

/-- A dynamic argument that may or may not be a function value. -/
inductive JFun (α : Type) where
  | fn : α → JFun α
  | notFn : Val → JFun α

/-- `registerPlugin(name, handler)`: validates, stores, emits
`plugin:registered`.  Returns the (possibly unchanged) bus alongside the
`Except` outcome, since in JS the instance survives a throw. -/
def registerPlugin (bus : Bus) (nameV : Val) (h : JFun Handler) :
    RunSt → Except String Unit × Bus × RunSt := fun st =>
  match nameV with
  | Val.str s =>
      if s = "" then
        (Except.error "Plugin name must be a non-empty string.", bus, st)
      else
        match h with
        | JFun.notFn _ =>
            (Except.error "Plugin handler must be a function.", bus, st)
        | JFun.fn f =>
            if (bus.plugins.lookup s).isSome then
              (Except.error ("Plugin \"" ++ s ++ "\" is already registered."),
                bus, st)
            else
              let bus' : Bus := { bus with plugins := bus.plugins ++ [(s, f)] }
              match emit bus' "plugin:registered"
                  (Val.obj [("name", Val.str s)]) st with
              | (_, st') => (Except.ok (), bus', st')
  | _ => (Except.error "Plugin name must be a non-empty string.", bus, st)

/-- `unregisterPlugin(name)`: deletes the mapping; emits
`plugin:unregistered` only when a deletion actually happened. -/
def unregisterPlugin (bus : Bus) (name : String) :
    RunSt → Bus × RunSt := fun st =>
  if (bus.plugins.lookup name).isSome then
    let bus' : Bus :=
      { bus with plugins := bus.plugins.filter (fun p => p.1 ≠ name) }
    match emit bus' "plugin:unregistered"
        (Val.obj [("name", Val.str name)]) st with
    | (_, st') => (bus', st')
  else (bus, st)

/-- `use(middleware)`: validates and appends. -/
def use (bus : Bus) (m : JFun Middleware) : Except String Bus :=
  match m with
  | JFun.notFn _ => Except.error "Middleware must be a function."
  | JFun.fn f => Except.ok { bus with middlewares := bus.middlewares ++ [f] }

/-- `on(event, callback)`: adds to the event's `Set` (created on first
use); `Set.add` deduplicates by reference identity.  (`on` itself is
notation in Mathlib, hence the name `onEvent`.) -/
def onEvent (bus : Bus) (event : String) (l : Listener) : Bus :=
  match bus.listeners.lookup event with
  | none => { bus with listeners := bus.listeners ++ [(event, [l])] }
  | some ls =>
      if ls.any (fun x => x.id = l.id) then bus
      else { bus with listeners := setAssoc bus.listeners event (ls ++ [l]) }

/-- `off(event, callback)`: removes from the event's `Set` if present. -/
def offEvent (bus : Bus) (event : String) (l : Listener) : Bus :=
  match bus.listeners.lookup event with
  | none => bus
  | some ls =>
      { bus with
        listeners := setAssoc bus.listeners event
          (ls.filter (fun x => x.id ≠ l.id)) }

/-- `this.middlewares.reduceRight((next, middleware) => async () =>
middleware(message, context, next), async () => handler(message, context))`:
the per-call pipeline. -/
def pipeline (mws : List Middleware) (msgR ctxR : Nat) (handler : Handler) :
    ExtM Val :=
  mws.foldr (fun mw next => mw msgR ctxR next) (handler msgR ctxR)

/-- `send(name, message, context)` with an explicit context reference. -/
def send (bus : Bus) (name : String) (msgR ctxR : Nat) : M Val :=
  match bus.plugins.lookup name with
  | none => M.throwE ("Plugin \"" ++ name ++ "\" is not registered.")
  | some handler =>
      M.bind (liftE (pipeline bus.middlewares msgR ctxR handler))
        (fun response =>
          M.bind (emit bus "plugin:message"
            (Val.obj [("name", Val.str name), ("message", Val.ref msgR),
              ("response", response)]))
            (fun _ => M.pure response))

/-- `send(name, message)` with the defaulted fresh `\x7b\x7d` context. -/
def sendDefault (bus : Bus) (name : String) (msgR : Nat) : M Val :=
  M.bind (allocRef (Val.obj [])) (fun ctxR => send bus name msgR ctxR)

/-- One per-target task of `broadcast`: `send(...).catch(error => ...)`. -/
def sendCaught (bus : Bus) (name : String) (msgR ctxR : Nat) : M Val :=
  M.tryCatch (send bus name msgR ctxR)
    (fun e =>
      M.bind
        (logError ("Broadcast error for plugin \"" ++ name ++ "\": " ++ e))
        (fun _ => M.pure (Val.obj [("error", Val.str e)])))

/-- Run the per-target tasks in snapshot order, collecting results. -/
def runTasks (bus : Bus) (msgR ctxR : Nat) : List String → M (List Val)
  | [] => M.pure []
  | n :: ns =>
      M.bind (sendCaught bus n msgR ctxR) (fun r =>
        M.bind (runTasks bus msgR ctxR ns) (fun rs => M.pure (r :: rs)))

/-- `broadcast(message, context)`: snapshot of the registered names, then
full fan-out with per-target isolation, joined into one ordered list. -/
def broadcast (bus : Bus) (msgR ctxR : Nat) : M (List Val) :=
  runTasks bus msgR ctxR (bus.plugins.map Prod.fst)

/-- `broadcast(message)` with the defaulted context: one fresh `\x7b\x7d`
object shared by the whole call. -/
def broadcastDefault (bus : Bus) (msgR : Nat) : M (List Val) :=
  M.bind (allocRef (Val.obj [])) (fun ctxR => broadcast bus msgR ctxR)

/-! ### Probe capabilities used in the behavioural theorems -/

/-- A middleware that records its tag and delegates to `next`. -/
def probeMW (i : Nat) : Middleware := fun _ _ next =>
  ExtM.bind (note (Val.num i)) (fun _ => next)

/-- A middleware that records its tag and short-circuits: it returns `v`
without ever invoking `next`. -/
def shortMW (i : Nat) (v : Val) : Middleware := fun _ _ _ =>
  ExtM.bind (note (Val.num i)) (fun _ => ExtM.pure v)

/-- A handler that records its tag and returns `v`. -/
def probeH (i : Nat) (v : Val) : Handler := fun _ _ =>
  ExtM.bind (note (Val.num i)) (fun _ => ExtM.pure v)

/-- The `plugin:message` payload object `\x7bname, message, response\x7d`. -/
def msgPayload (name : String) (msgR : Nat) (response : Val) : Val :=
  Val.obj [("name", Val.str name), ("message", Val.ref msgR),
    ("response", response)]

/-- C1: with middlewares `[M1, M2]` and handler `H`, `send` runs
M1, then M2, then H (trace `[1, 2, 3]`); if M1 short-circuits, M2 and H
never run (trace `[1]`) and M1's value is the response; with an empty
middleware list the composed pipeline is definitionally the terminal
handler invocation. -/
theorem send_runs_stages_in_order :
    (∀ (v : Val) (st : RunSt),
      send (Bus.mk [("p", probeH 3 v)] [probeMW 1, probeMW 2] []) "p" 0 1 st =
        (Except.ok v,
          { st with
            ext := { st.ext with
              trace := st.ext.trace ++ [Val.num 1, Val.num 2, Val.num 3] },
            emitted := st.emitted ++ [("plugin:message", msgPayload "p" 0 v)] }))
    ∧
    (∀ (v w : Val) (st : RunSt),
      send (Bus.mk [("p", probeH 3 w)] [shortMW 1 v, probeMW 2] []) "p" 0 1 st =
        (Except.ok v,
          { st with
            ext := { st.ext with trace := st.ext.trace ++ [Val.num 1] },
            emitted := st.emitted ++ [("plugin:message", msgPayload "p" 0 v)] }))
    ∧
    (∀ (msgR ctxR : Nat) (h : Handler),
      pipeline [] msgR ctxR h = h msgR ctxR) := by
  refine ⟨?_, ?_, ?_⟩
  · intro v st
    simp [send, pipeline, probeMW, probeH, emit, note, M.bind, ExtM.bind,
      liftE, M.pure, ExtM.pure, msgPayload, List.lookup]
  · intro v w st
    simp [send, pipeline, shortMW, probeMW, probeH, emit, note, M.bind,
      ExtM.bind, liftE, M.pure, ExtM.pure, msgPayload, List.lookup]
  · intro msgR ctxR h
    rfl

/-- A handler that ignores its arguments and succeeds with `v`. -/
def constH (v : Val) : Handler := fun _ _ => ExtM.pure v

/-- A handler that ignores its arguments and fails with message `e`. -/
def failH (e : String) : Handler := fun _ _ => ExtM.throwE e

theorem sendCaught_ok (bus : Bus) (name : String) (msgR ctxR : Nat)
    (st : RunSt) :
    ∃ r st', sendCaught bus name msgR ctxR st = (Except.ok r, st') := by
  simp only [sendCaught, M.tryCatch]
  cases h : send bus name msgR ctxR st with
  | mk res st1 =>
    cases res with
    | ok a => exact ⟨a, st1, rfl⟩
    | error e => exact ⟨_, _, rfl⟩

theorem runTasks_ok (bus : Bus) (msgR ctxR : Nat) :
    ∀ (names : List String) (st : RunSt),
      ∃ rs st', runTasks bus msgR ctxR names st = (Except.ok rs, st') ∧
        rs.length = names.length := by
  intro names
  induction names with
  | nil => intro st; exact ⟨[], st, rfl, rfl⟩
  | cons n ns ih =>
      intro st
      obtain ⟨r, st1, hr⟩ := sendCaught_ok bus n msgR ctxR st
      obtain ⟨rs, st2, hrs, hlen⟩ := ih st1
      refine ⟨r :: rs, st2, ?_, by simp [hlen]⟩
      simp [runTasks, M.bind, hr, hrs, M.pure]

/-- C2: `broadcast` never fails and yields one slot per snapshotted
plugin name, in snapshot order (full join); each per-target failure is
caught by the per-target task, reported to the diagnostic sink, and
replaced by `\x7berror: <message>\x7d` in that slot; on the spec's example
(A succeeds with `v`, B fails with `"boom"`) the result is
`[v, \x7berror: "boom"\x7d]` and broadcast resolves successfully. -/
theorem broadcast_isolates_target_failures :
    (∀ (bus : Bus) (msgR ctxR : Nat) (st : RunSt),
      ∃ rs st', broadcast bus msgR ctxR st = (Except.ok rs, st') ∧
        rs.length = (bus.plugins.map Prod.fst).length)
    ∧
    (∀ (bus : Bus) (name : String) (msgR ctxR : Nat) (st st' : RunSt)
        (e : String),
      send bus name msgR ctxR st = (Except.error e, st') →
      sendCaught bus name msgR ctxR st =
        (Except.ok (Val.obj [("error", Val.str e)]),
          { st' with log := st'.log ++
            ["Broadcast error for plugin \"" ++ name ++ "\": " ++ e] }))
    ∧
    (∀ (v : Val) (st : RunSt),
      broadcast (Bus.mk [("A", constH v), ("B", failH "boom")] [] []) 0 1 st =
        (Except.ok [v, Val.obj [("error", Val.str "boom")]],
          { st with
            emitted := st.emitted ++ [("plugin:message", msgPayload "A" 0 v)],
            log := st.log ++ ["Broadcast error for plugin \"B\": boom"] })) := by
  refine ⟨?_, ?_, ?_⟩
  · intro bus msgR ctxR st
    exact runTasks_ok bus msgR ctxR (bus.plugins.map Prod.fst) st
  · intro bus name msgR ctxR st st' e h
    simp [sendCaught, M.tryCatch, h, logError, M.bind, M.pure]
  · intro v st
    simp [broadcast, runTasks, sendCaught, send, pipeline, constH, failH,
      emit, M.tryCatch, M.bind, ExtM.bind, liftE, M.pure, ExtM.pure,
      ExtM.throwE, M.throwE, logError, msgPayload, List.lookup]

/-- Closed instance of the conditional part of
`broadcast_isolates_target_failures`: the failing target B is replaced
by the error-shaped substitute and the failure is logged. -/
theorem broadcast_isolation_witness :
    sendCaught (Bus.mk [("B", failH "boom")] [] []) "B" 0 1
        (RunSt.mk (ExtSt.mk [] []) [] []) =
      (Except.ok (Val.obj [("error", Val.str "boom")]),
        RunSt.mk (ExtSt.mk [] []) []
          ["Broadcast error for plugin \"B\": boom"]) :=
  broadcast_isolates_target_failures.2.1
    (Bus.mk [("B", failH "boom")] [] []) "B" 0 1
    (RunSt.mk (ExtSt.mk [] []) [] [])
    (RunSt.mk (ExtSt.mk [] []) [] []) "boom" rfl

theorem invokeListeners_ok_emitted (event : String) (payload : Val) :
    ∀ (ls : List Listener) (st : RunSt),
      (invokeListeners event payload ls st).1 = Except.ok () ∧
      (invokeListeners event payload ls st).2.emitted = st.emitted := by
  intro ls
  induction ls with
  | nil => intro st; exact ⟨rfl, rfl⟩
  | cons l ls ih =>
      intro st
      obtain ⟨i, f⟩ := l
      cases hf : f payload st.ext with
      | mk r ext' =>
        cases r with
        | ok a =>
            have hstep : invokeListeners event payload (Listener.mk i f :: ls) st
                = invokeListeners event payload ls { st with ext := ext' } := by
              simp [invokeListeners, M.bind, M.tryCatch, liftE, M.pure, hf]
            rw [hstep]; exact ih _
        | error e =>
            have hstep : invokeListeners event payload (Listener.mk i f :: ls) st
                = invokeListeners event payload ls
                    { st with
                      ext := ext'
                      log := st.log ++
                        ["Listener error for event \"" ++ event ++ "\": " ++ e] } := by
              simp [invokeListeners, M.bind, M.tryCatch, liftE, M.pure,
                logError, hf]
            rw [hstep]; exact ih _

theorem emit_ok_emitted (bus : Bus) (event : String) (payload : Val)
    (st : RunSt) :
    (emit bus event payload st).1 = Except.ok () ∧
    (emit bus event payload st).2.emitted = st.emitted ++ [(event, payload)] := by
  simp only [emit]
  cases bus.listeners.lookup event with
  | none => exact ⟨rfl, rfl⟩
  | some ls =>
      simpa using invokeListeners_ok_emitted event payload ls
        { st with emitted := st.emitted ++ [(event, payload)] }

/-- C3: when the pipeline of a registered plugin succeeds, `send`
returns the pipeline's response and appends exactly one
`plugin:message` record with payload `\x7bname, message, response\x7d`;
when the pipeline fails, `send` propagates the failure and the final
state is the pipeline's state unchanged further — in particular no
`plugin:message` record is appended. -/
theorem send_message_event_iff_success :
    (∀ (bus : Bus) (name : String) (h : Handler) (msgR ctxR : Nat)
        (st : RunSt) (resp : Val) (ext' : ExtSt),
      bus.plugins.lookup name = some h →
      pipeline bus.middlewares msgR ctxR h st.ext = (Except.ok resp, ext') →
      ∃ st', send bus name msgR ctxR st = (Except.ok resp, st') ∧
        st'.emitted =
          st.emitted ++ [("plugin:message", msgPayload name msgR resp)])
    ∧
    (∀ (bus : Bus) (name : String) (h : Handler) (msgR ctxR : Nat)
        (st : RunSt) (e : String) (ext' : ExtSt),
      bus.plugins.lookup name = some h →
      pipeline bus.middlewares msgR ctxR h st.ext = (Except.error e, ext') →
      send bus name msgR ctxR st = (Except.error e, { st with ext := ext' }) ∧
        ({ st with ext := ext' } : RunSt).emitted = st.emitted) := by
  constructor
  · intro bus name h msgR ctxR st resp ext' hl hp
    cases he : emit bus "plugin:message" (msgPayload name msgR resp)
        { st with ext := ext' } with
    | mk r st2 =>
      have hok := emit_ok_emitted bus "plugin:message"
        (msgPayload name msgR resp) { st with ext := ext' }
      rw [he] at hok
      have hr : r = Except.ok () := hok.1
      refine ⟨st2, ?_, by simpa using hok.2⟩
      simp only [msgPayload] at he
      simp [send, hl, M.bind, liftE, hp, he, hr, M.pure]
  · intro bus name h msgR ctxR st e ext' hl hp
    exact ⟨by simp [send, hl, M.bind, liftE, hp], rfl⟩

/-- Closed instance of `send_message_event_iff_success`: a successful
send appends the one event record; a failing one leaves the state as the
pipeline left it, with no event record. -/
theorem send_message_event_witness :
    (∃ st', send (Bus.mk [("p", constH Val.null)] [] []) "p" 0 1
        (RunSt.mk (ExtSt.mk [] []) [] []) = (Except.ok Val.null, st') ∧
      st'.emitted = [("plugin:message", msgPayload "p" 0 Val.null)])
    ∧
    (send (Bus.mk [("q", failH "x")] [] []) "q" 0 1
        (RunSt.mk (ExtSt.mk [] []) [] []) =
      (Except.error "x", RunSt.mk (ExtSt.mk [] []) [] []) ∧
      (RunSt.mk (ExtSt.mk [] []) [] []).emitted = []) :=
  ⟨send_message_event_iff_success.1 (Bus.mk [("p", constH Val.null)] [] [])
      "p" (constH Val.null) 0 1 (RunSt.mk (ExtSt.mk [] []) [] [])
      Val.null (ExtSt.mk [] []) rfl rfl,
    send_message_event_iff_success.2 (Bus.mk [("q", failH "x")] [] [])
      "q" (failH "x") 0 1 (RunSt.mk (ExtSt.mk [] []) [] [])
      "x" (ExtSt.mk [] []) rfl rfl⟩

/-- C4: `send` to an unregistered name fails with the `UnknownPlugin`
error (message `Plugin "<name>" is not registered.`) and leaves the
state completely unchanged: no `plugin:message` record, no middleware or
handler invocation, no heap or trace effect. -/
theorem send_unknown_plugin_no_effect :
    ∀ (bus : Bus) (name : String) (msgR ctxR : Nat) (st : RunSt),
      bus.plugins.lookup name = none →
      send bus name msgR ctxR st =
        (Except.error ("Plugin \"" ++ name ++ "\" is not registered."), st) := by
  intro bus name msgR ctxR st h
  simp [send, h, M.throwE]

/-- Closed instance of `send_unknown_plugin_no_effect` on an empty bus. -/
theorem send_unknown_plugin_witness :
    send (Bus.mk [] [] []) "ghost" 0 1 (RunSt.mk (ExtSt.mk [] []) [] []) =
      (Except.error "Plugin \"ghost\" is not registered.",
        RunSt.mk (ExtSt.mk [] []) [] []) :=
  send_unknown_plugin_no_effect (Bus.mk [] [] []) "ghost" 0 1
    (RunSt.mk (ExtSt.mk [] []) [] []) rfl

/-- C5: `registerPlugin` fails with the `InvalidArgument` errors on an
empty-string name, a non-string name, or a non-function handler, and
with the `DuplicatePlugin` error on an already registered name; in all
four failure cases the returned bus and run state are the very ones
passed in (no state mutation), so the first registration's handler
stays the one found under that name. -/
theorem registerPlugin_failures_leave_state_unchanged :
    (∀ (bus : Bus) (h : JFun Handler) (st : RunSt),
      registerPlugin bus (Val.str "") h st =
        (Except.error "Plugin name must be a non-empty string.", bus, st))
    ∧
    (∀ (bus : Bus) (v : Val) (h : JFun Handler) (st : RunSt),
      (∀ s, v ≠ Val.str s) →
      registerPlugin bus v h st =
        (Except.error "Plugin name must be a non-empty string.", bus, st))
    ∧
    (∀ (bus : Bus) (s : String) (w : Val) (st : RunSt),
      s ≠ "" →
      registerPlugin bus (Val.str s) (JFun.notFn w) st =
        (Except.error "Plugin handler must be a function.", bus, st))
    ∧
    (∀ (bus : Bus) (s : String) (f h0 : Handler) (st : RunSt),
      s ≠ "" →
      bus.plugins.lookup s = some h0 →
      registerPlugin bus (Val.str s) (JFun.fn f) st =
        (Except.error ("Plugin \"" ++ s ++ "\" is already registered."),
          bus, st)
        ∧ bus.plugins.lookup s = some h0) := by
  refine ⟨?_, ?_, ?_, ?_⟩
  · intro bus h st; simp [registerPlugin]
  · intro bus v h st hv
    cases v with
    | str s => exact absurd rfl (hv s)
    | null => simp [registerPlugin]
    | num n => simp [registerPlugin]
    | ref r => simp [registerPlugin]
    | obj fs => simp [registerPlugin]
  · intro bus s w st hs; simp [registerPlugin, hs]
  · intro bus s f h0 st hs hl
    exact ⟨by simp [registerPlugin, hs, hl], hl⟩

/-- Closed instances of the conditional parts of
`registerPlugin_failures_leave_state_unchanged`. -/
theorem registerPlugin_failures_witness :
    (registerPlugin (Bus.mk [] [] []) (Val.num 7) (JFun.fn (constH Val.null))
        (RunSt.mk (ExtSt.mk [] []) [] []) =
      (Except.error "Plugin name must be a non-empty string.",
        Bus.mk [] [] [], RunSt.mk (ExtSt.mk [] []) [] []))
    ∧
    (registerPlugin (Bus.mk [] [] []) (Val.str "p") (JFun.notFn Val.null)
        (RunSt.mk (ExtSt.mk [] []) [] []) =
      (Except.error "Plugin handler must be a function.",
        Bus.mk [] [] [], RunSt.mk (ExtSt.mk [] []) [] []))
    ∧
    (registerPlugin (Bus.mk [("p", constH Val.null)] [] []) (Val.str "p")
        (JFun.fn (constH (Val.num 1))) (RunSt.mk (ExtSt.mk [] []) [] []) =
      (Except.error "Plugin \"p\" is already registered.",
        Bus.mk [("p", constH Val.null)] [] [],
        RunSt.mk (ExtSt.mk [] []) [] [])
      ∧ (Bus.mk [("p", constH Val.null)] [] []).plugins.lookup "p" =
        some (constH Val.null)) :=
  ⟨registerPlugin_failures_leave_state_unchanged.2.1 (Bus.mk [] [] [])
      (Val.num 7) (JFun.fn (constH Val.null))
      (RunSt.mk (ExtSt.mk [] []) [] [])
      (fun s hh => Val.noConfusion hh),
    registerPlugin_failures_leave_state_unchanged.2.2.1 (Bus.mk [] [] [])
      "p" Val.null (RunSt.mk (ExtSt.mk [] []) [] []) (by decide),
    registerPlugin_failures_leave_state_unchanged.2.2.2
      (Bus.mk [("p", constH Val.null)] [] []) "p" (constH (Val.num 1))
      (constH Val.null) (RunSt.mk (ExtSt.mk [] []) [] []) (by decide) rfl⟩

/-- A middleware that overwrites the message object's contents with `v`
before invoking `next` (in-place mutation of the shared reference). -/
def setMsgMW (v : Val) : Middleware := fun msgR _ next =>
  ExtM.bind (writeRef msgR v) (fun _ => next)

/-- A middleware that overwrites the context object's contents with `v`
before invoking `next`. -/
def setCtxMW (v : Val) : Middleware := fun _ ctxR next =>
  ExtM.bind (writeRef ctxR v) (fun _ => next)

/-- A middleware that observes the current message and context contents
(recording them in the trace) and then invokes `next`. -/
def probeRefsMW : Middleware := fun msgR ctxR next =>
  ExtM.bind (readRef msgR) (fun m =>
    ExtM.bind (readRef ctxR) (fun c =>
      ExtM.bind (note (Val.obj [("m", m), ("c", c)])) (fun _ => next)))

/-- A handler answering with the current message and context contents. -/
def echoRefsH : Handler := fun msgR ctxR =>
  ExtM.bind (readRef msgR) (fun m =>
    ExtM.bind (readRef ctxR) (fun c =>
      ExtM.pure (Val.obj [("m", m), ("c", c)])))

/-- C6: a middleware stage may transform the message and context it
passes on (by mutating the shared message/context objects before
invoking `next`): with stages that overwrite the message with `mv` and
the context with `cv`, the downstream probing stage observes `(mv, cv)`
— not the original `(m0, c0)` — and the terminal handler receives and
answers `(mv, cv)` as well. -/
theorem middleware_transforms_reach_downstream :
    ∀ (m0 c0 mv cv : Val) (tr : List Val) (em : List (String × Val))
      (lg : List String),
      send (Bus.mk [("p", echoRefsH)]
          [setMsgMW mv, setCtxMW cv, probeRefsMW] [])
          "p" 0 1 (RunSt.mk (ExtSt.mk [m0, c0] tr) em lg) =
        (Except.ok (Val.obj [("m", mv), ("c", cv)]),
          RunSt.mk
            (ExtSt.mk [mv, cv] (tr ++ [Val.obj [("m", mv), ("c", cv)]]))
            (em ++ [("plugin:message",
              msgPayload "p" 0 (Val.obj [("m", mv), ("c", cv)]))])
            lg) := by
  intro m0 c0 mv cv tr em lg
  simp [send, pipeline, setMsgMW, setCtxMW, probeRefsMW, echoRefsH, emit,
    writeRef, readRef, note, M.bind, ExtM.bind, liftE, M.pure, ExtM.pure,
    msgPayload, List.lookup, List.set, List.getD]

/-- A listener that records its tag and then fails with message `e`. -/
def noteThenFailL (i : Nat) (e : String) : Listener :=
  ⟨i, fun _ => ExtM.bind (note (Val.num i)) (fun _ => ExtM.throwE e)⟩

/-- A listener that just records its tag. -/
def noteL (i : Nat) : Listener := ⟨i, fun _ => note (Val.num i)⟩

/-- C7: with a failing listener followed by a succeeding one, `emit`
invokes both (both tags land in the trace), reports the failure to the
diagnostic sink, and itself returns successfully, so the failure never
reaches the operation that triggered the emission. -/
theorem emit_isolates_listener_failures :
    ∀ (ev e : String) (p : Val) (st : RunSt),
      emit (Bus.mk [] [] [(ev, [noteThenFailL 1 e, noteL 2])]) ev p st =
        (Except.ok (),
          { st with
            ext := { st.ext with
              trace := st.ext.trace ++ [Val.num 1, Val.num 2] }
            emitted := st.emitted ++ [(ev, p)]
            log := st.log ++
              ["Listener error for event \"" ++ ev ++ "\": " ++ e] }) := by
  intro ev e p st
  simp [emit, invokeListeners, noteThenFailL, noteL, note, M.bind, M.tryCatch,
    liftE, M.pure, ExtM.bind, ExtM.throwE, logError, List.lookup]

theorem lookup_filter_ne {α : Type} (name : String) :
    ∀ (l : List (String × α)),
      (l.filter (fun p => p.1 ≠ name)).lookup name = none := by
  intro l
  induction l with
  | nil => rfl
  | cons p rest ih =>
      by_cases h : p.1 = name
      · simpa [List.filter_cons, h] using ih
      · have hb : (name == p.1) = false :=
          beq_eq_false_iff_ne.mpr (fun hh => h hh.symm)
        simpa [List.filter_cons, h, List.lookup, hb] using ih

theorem send_none {bus : Bus} {name : String}
    (h : bus.plugins.lookup name = none) (msgR ctxR : Nat) (st : RunSt) :
    send bus name msgR ctxR st =
      (Except.error ("Plugin \"" ++ name ++ "\" is not registered."), st) := by
  simp [send, h, M.throwE]

/-- C8: `unregisterPlugin` of an absent name returns the bus and state
untouched (no event, and by totality of the operation no error); of a
present name it removes the mapping — a subsequent `send` to that name
fails with the `UnknownPlugin` error — and appends exactly one
`plugin:unregistered` record with payload `\x7bname\x7d`. -/
theorem unregister_noop_or_removes :
    (∀ (bus : Bus) (name : String) (st : RunSt),
      bus.plugins.lookup name = none →
      unregisterPlugin bus name st = (bus, st))
    ∧
    (∀ (bus : Bus) (name : String) (h0 : Handler) (st : RunSt),
      bus.plugins.lookup name = some h0 →
      ∃ bus' st',
        unregisterPlugin bus name st = (bus', st') ∧
        bus'.plugins.lookup name = none ∧
        st'.emitted = st.emitted ++
          [("plugin:unregistered", Val.obj [("name", Val.str name)])] ∧
        (∀ (msgR ctxR : Nat) (st2 : RunSt),
          send bus' name msgR ctxR st2 =
            (Except.error ("Plugin \"" ++ name ++ "\" is not registered."),
              st2))) := by
  constructor
  · intro bus name st h
    simp [unregisterPlugin, h]
  · intro bus name h0 st hl
    refine ⟨{ bus with plugins := bus.plugins.filter (fun p => p.1 ≠ name) },
      (emit { bus with plugins := bus.plugins.filter (fun p => p.1 ≠ name) }
        "plugin:unregistered" (Val.obj [("name", Val.str name)]) st).2,
      ?_, lookup_filter_ne name bus.plugins, ?_, ?_⟩
    · simp [unregisterPlugin, hl]
    · exact (emit_ok_emitted _ "plugin:unregistered"
        (Val.obj [("name", Val.str name)]) st).2
    · intro msgR ctxR st2
      exact send_none (lookup_filter_ne name bus.plugins) msgR ctxR st2

/-- Closed instances of `unregister_noop_or_removes`: a no-op on the
empty bus, and actual removal of a present plugin. -/
theorem unregister_witness :
    (unregisterPlugin (Bus.mk [] [] []) "ghost"
        (RunSt.mk (ExtSt.mk [] []) [] []) =
      (Bus.mk [] [] [], RunSt.mk (ExtSt.mk [] []) [] []))
    ∧
    (∃ bus' st',
      unregisterPlugin (Bus.mk [("p", constH Val.null)] [] []) "p"
          (RunSt.mk (ExtSt.mk [] []) [] []) = (bus', st') ∧
      bus'.plugins.lookup "p" = none ∧
      st'.emitted =
        [("plugin:unregistered", Val.obj [("name", Val.str "p")])] ∧
      (∀ (msgR ctxR : Nat) (st2 : RunSt),
        send bus' "p" msgR ctxR st2 =
          (Except.error "Plugin \"p\" is not registered.", st2))) :=
  ⟨unregister_noop_or_removes.1 (Bus.mk [] [] []) "ghost"
      (RunSt.mk (ExtSt.mk [] []) [] []) rfl,
    unregister_noop_or_removes.2 (Bus.mk [("p", constH Val.null)] [] [])
      "p" (constH Val.null) (RunSt.mk (ExtSt.mk [] []) [] []) rfl⟩

theorem lookup_append_single_of_none {α : Type} (k : String) (x : α) :
    ∀ (l : List (String × α)), l.lookup k = none →
      (l ++ [(k, x)]).lookup k = some x := by
  intro l
  induction l with
  | nil => intro _; simp [List.lookup]
  | cons p rest ih =>
      obtain ⟨k', v'⟩ := p
      intro h
      cases hb : (k == k') with
      | true => simp [List.lookup, hb] at h
      | false =>
          have h' : rest.lookup k = none := by simpa [List.lookup, hb] using h
          simpa [List.lookup, hb] using ih h'

theorem lookup_setAssoc_self {α : Type} (k : String) (v : α) :
    ∀ (l : List (String × α)), (setAssoc l k v).lookup k = some v := by
  intro l
  induction l with
  | nil => simp [setAssoc, List.lookup]
  | cons p rest ih =>
      obtain ⟨k', v'⟩ := p
      by_cases h : k' = k
      · simp [setAssoc, h, List.lookup]
      · have hb : (k == k') = false :=
          beq_eq_false_iff_ne.mpr (fun hh => h hh.symm)
        simp [setAssoc, h, List.lookup, hb, ih]

theorem setAssoc_setAssoc {α : Type} (k : String) (v w : α) :
    ∀ (l : List (String × α)),
      setAssoc (setAssoc l k v) k w = setAssoc l k w := by
  intro l
  induction l with
  | nil => simp [setAssoc]
  | cons p rest ih =>
      obtain ⟨k', v'⟩ := p
      by_cases h : k' = k
      · simp [setAssoc, h]
      · simp [setAssoc, h, ih]

/-- C9: the listener sets really behave as reference-deduplicated sets:
subscribing the same listener twice equals subscribing it once (so it
fires at most once per emission — behavioural instance included: the
doubly subscribed listener's tag lands in the trace exactly once);
removing it twice equals removing it once; after removal no listener
with its identity remains subscribed; emissions before subscription or
after removal never invoke it (state effect is the emission record
alone). -/
theorem listener_registry_set_semantics :
    (∀ (bus : Bus) (ev : String) (l : Listener),
      onEvent (onEvent bus ev l) ev l = onEvent bus ev l)
    ∧
    (∀ (bus : Bus) (ev : String) (l : Listener),
      offEvent (offEvent bus ev l) ev l = offEvent bus ev l)
    ∧
    (∀ (bus : Bus) (ev : String) (l l' : Listener),
      l' ∈ (((offEvent bus ev l).listeners.lookup ev).getD []) →
        l'.id ≠ l.id)
    ∧
    (∀ (ev : String) (i : Nat) (p : Val) (st : RunSt),
      emit (onEvent (onEvent (Bus.mk [] [] []) ev (noteL i)) ev (noteL i))
          ev p st =
        (Except.ok (),
          { st with
            ext := { st.ext with trace := st.ext.trace ++ [Val.num i] }
            emitted := st.emitted ++ [(ev, p)] }))
    ∧
    (∀ (ev : String) (p : Val) (st : RunSt),
      emit (Bus.mk [] [] []) ev p st =
        (Except.ok (), { st with emitted := st.emitted ++ [(ev, p)] }))
    ∧
    (∀ (ev : String) (i : Nat) (p : Val) (st : RunSt),
      emit (offEvent (onEvent (Bus.mk [] [] []) ev (noteL i)) ev (noteL i))
          ev p st =
        (Except.ok (), { st with emitted := st.emitted ++ [(ev, p)] })) := by
  refine ⟨?_, ?_, ?_, ?_, ?_, ?_⟩
  · intro bus ev l
    cases hl : bus.listeners.lookup ev with
    | none =>
        have h1 : onEvent bus ev l =
            { bus with listeners := bus.listeners ++ [(ev, [l])] } := by
          simp [onEvent, hl]
        rw [h1]
        have h2 : ({ bus with listeners := bus.listeners ++ [(ev, [l])] } :
            Bus).listeners.lookup ev = some [l] :=
          lookup_append_single_of_none ev [l] bus.listeners hl
        simp [onEvent, h2]
    | some ls =>
        cases ha : ls.any (fun x => x.id = l.id) with
        | true =>
            have h1 : onEvent bus ev l = bus := by simp [onEvent, hl, ha]
            rw [h1]; exact h1
        | false =>
            have h1 : onEvent bus ev l =
                { bus with
                  listeners := setAssoc bus.listeners ev (ls ++ [l]) } := by
              simp [onEvent, hl, ha]
            rw [h1]
            have h2 := lookup_setAssoc_self ev (ls ++ [l]) bus.listeners
            have h3 : (ls ++ [l]).any (fun x => x.id = l.id) = true := by
              simp [List.any_append]
            simp [onEvent, h2, h3]
  · intro bus ev l
    cases hl : bus.listeners.lookup ev with
    | none => simp [offEvent, hl]
    | some ls =>
        have h1 : offEvent bus ev l =
            { bus with
              listeners := setAssoc bus.listeners ev
                (ls.filter (fun x => x.id ≠ l.id)) } := by
          simp [offEvent, hl]
        rw [h1]
        have h2 := lookup_setAssoc_self ev
          (ls.filter (fun x => x.id ≠ l.id)) bus.listeners
        have h3 : (ls.filter (fun x => x.id ≠ l.id)).filter
            (fun x => x.id ≠ l.id) = ls.filter (fun x => x.id ≠ l.id) := by
          rw [List.filter_filter]; simp
        simp only [offEvent, h2, h3, setAssoc_setAssoc]
  · intro bus ev l l' hmem
    cases hl : bus.listeners.lookup ev with
    | none => simp [offEvent, hl] at hmem
    | some ls =>
        simp [offEvent, hl, lookup_setAssoc_self, List.mem_filter] at hmem
        exact hmem.2
  · intro ev i p st
    simp [onEvent, offEvent, emit, invokeListeners, noteL, note, M.bind,
      M.tryCatch, liftE, M.pure, List.lookup, List.any_cons]
  · intro ev p st
    simp [emit, List.lookup]
  · intro ev i p st
    simp [onEvent, offEvent, emit, invokeListeners, noteL, note, setAssoc,
      M.bind, M.tryCatch, liftE, M.pure, List.lookup, List.filter]

/-- Closed instance of the removal part of
`listener_registry_set_semantics`: after `off` of listener 1, the
remaining subscribed listener is not listener 1. -/
theorem listener_registry_witness :
    (noteL 2).id ≠ (noteL 1).id :=
  listener_registry_set_semantics.2.2.1
    (Bus.mk [] [] [("e", [noteL 1, noteL 2])]) "e" (noteL 1) (noteL 2)
    (by simp [offEvent, setAssoc, noteL, List.lookup, List.filter])

/-- A handler that overwrites the context object's contents with `v` and
answers `0`. -/
def writeCtxH (v : Val) : Handler := fun _ ctxR =>
  ExtM.bind (writeRef ctxR v) (fun _ => ExtM.pure (Val.num 0))

/-- A handler that answers the context object's current contents. -/
def readCtxH : Handler := fun _ ctxR => readRef ctxR

/-- C10: `broadcast` hands the very same context reference to every
per-target `send` (no per-target cloning): target A's in-place write to
the context is observed by target B, both with an explicitly passed
context and with the defaulted context, which is one freshly allocated
empty object shared by the whole call; and a broadcast over zero
registered plugins resolves successfully with the empty result list. -/
theorem broadcast_shares_one_context :
    (∀ (bus : Bus) (msgR ctxR : Nat) (st : RunSt),
      bus.plugins = [] →
      broadcast bus msgR ctxR st = (Except.ok [], st))
    ∧
    (∀ (m0 c0 v : Val) (tr : List Val) (em : List (String × Val))
        (lg : List String),
      broadcast (Bus.mk [("A", writeCtxH v), ("B", readCtxH)] [] []) 0 1
          (RunSt.mk (ExtSt.mk [m0, c0] tr) em lg) =
        (Except.ok [Val.num 0, v],
          RunSt.mk (ExtSt.mk [m0, v] tr)
            (em ++ [("plugin:message", msgPayload "A" 0 (Val.num 0)),
              ("plugin:message", msgPayload "B" 0 v)])
            lg))
    ∧
    (∀ (m0 v : Val) (tr : List Val) (em : List (String × Val))
        (lg : List String),
      broadcastDefault (Bus.mk [("A", writeCtxH v), ("B", readCtxH)] [] []) 0
          (RunSt.mk (ExtSt.mk [m0] tr) em lg) =
        (Except.ok [Val.num 0, v],
          RunSt.mk (ExtSt.mk [m0, v] tr)
            (em ++ [("plugin:message", msgPayload "A" 0 (Val.num 0)),
              ("plugin:message", msgPayload "B" 0 v)])
            lg)) := by
  refine ⟨?_, ?_, ?_⟩
  · intro bus msgR ctxR st h
    simp [broadcast, h, runTasks, M.pure]
  · intro m0 c0 v tr em lg
    simp [broadcast, runTasks, sendCaught, send, pipeline, writeCtxH,
      readCtxH, emit, writeRef, readRef, M.tryCatch, M.bind, ExtM.bind,
      liftE, M.pure, ExtM.pure, msgPayload, List.lookup, List.set,
      List.getD]
  · intro m0 v tr em lg
    simp [broadcastDefault, allocRef, broadcast, runTasks, sendCaught, send,
      pipeline, writeCtxH, readCtxH, emit, writeRef, readRef, M.tryCatch,
      M.bind, ExtM.bind, liftE, M.pure, ExtM.pure, msgPayload, List.lookup,
      List.set, List.getD]

/-- Closed instance of the zero-plugin part of
`broadcast_shares_one_context`. -/
theorem broadcast_empty_witness :
    broadcast (Bus.mk [] [] []) 0 1 (RunSt.mk (ExtSt.mk [] []) [] []) =
      (Except.ok [], RunSt.mk (ExtSt.mk [] []) [] []) :=
  broadcast_shares_one_context.1 (Bus.mk [] [] []) 0 1
    (RunSt.mk (ExtSt.mk [] []) [] []) rfl
